import Mathlib

/-!
A verification development for the session-lifecycle subsystem of the
mt5-bridge-server repository.  The Python sources under `src/` are embedded
shallowly: filesystem paths become lists of segments, the filesystem becomes a
set of (path, is-directory) entries, OS processes become (pid, executable)
pairs, and the `SessionManager` registry (a Python dict) becomes an
association list.  External nondeterminism (generated uuid, spawned pid, the
vendor library's init outcome) is passed in as explicit parameters.  Logging,
string file contents and the `_current_process` bookkeeping of
`_run_mt5_process` are not modelled; only the state that the verified
properties speak about is.
-/

namespace MT5Bridge

/-- A filesystem path, as a list of segments (`os.path.join` is append). -/
abbrev Path := List String

/-- Timestamps in epoch seconds (`datetime.now()` is passed in as a value). -/
abbrev Time := Nat

/-- One existing filesystem entry: its absolute path and whether it is a
directory (`os.path.isdir`). -/
structure FSEntry where
  path : Path
  isDir : Bool
deriving Repr, DecidableEq

/-- The filesystem: the set of existing entries (list with set semantics). -/
abbrev FS := List FSEntry

/-- `p` equals `root` or lies strictly below it (segment-wise). -/
def inTree (root : Path) : Path → Bool
  | [] => root.isEmpty
  | s :: rest =>
    match root with
    | [] => true
    | r :: rootRest => if r = s then inTree rootRest rest else false

/-- `os.path.exists`. -/
def pathExists (fs : FS) (p : Path) : Bool :=
  fs.any (fun e => e.path == p)

/-- `os.path.isdir`. -/
def isDirAt (fs : FS) (p : Path) : Bool :=
  fs.any (fun e => e.path == p && e.isDir)

/-- `shutil.rmtree p`: removes `p` and everything below it. -/
def rmtree (fs : FS) (p : Path) : FS :=
  fs.filter (fun e => !(inTree p e.path))

/-- `os.makedirs(p, exist_ok=True)`. -/
def makedirs (fs : FS) (p : Path) : FS :=
  if pathExists fs p then fs else ⟨p, true⟩ :: fs

/-- Creating (or overwriting) a file at `p`; contents are not modelled. -/
def writeFile (fs : FS) (p : Path) : FS :=
  if pathExists fs p then fs else ⟨p, false⟩ :: fs

/-- `shutil.copy2 src dst` (callers guard on `os.path.exists(src)`). -/
def copy2 (fs : FS) (_src dst : Path) : FS :=
  writeFile fs dst

/-- Relocation of an entry below `src` to the corresponding place below `dst`. -/
def relocate (src dst p : Path) : Path :=
  dst ++ p.drop src.length

/-- `shutil.copytree src dst` (callers remove `dst` first, as the source does). -/
def copytree (fs : FS) (src dst : Path) : FS :=
  (fs.filterMap (fun e =>
    if inTree src e.path then some ⟨relocate src dst e.path, e.isDir⟩ else none)) ++ fs

/-- `os.path.dirname`. -/
def dirname (p : Path) : Path := p.dropLast

/-- Python runtime errors that the embedded code can raise. -/
inductive PyError where
  | keyError (msg : String)
  | attributeError (attr : String)
  | typeError (msg : String)
deriving Repr, DecidableEq

deriving instance DecidableEq for Except

/-- Primitive Python values as they cross the embedded API boundary. -/
inductive PyValue where
  | str (s : String)
  | int (n : Int)
  | bool (b : Bool)
  | noneV
  | path (p : Path)
deriving Repr, DecidableEq

/-- The possible shapes of `SessionManager.create_session`'s return value:
its annotation promises a bare id string, while every `return` statement in
its body builds a dict. -/
inductive CreateReturn where
  | str (s : String)
  | dict (entries : List (String × PyValue))
deriving Repr, DecidableEq

/-- `class Session(NamedTuple)` from `app/session_manager.py` (lines 119-127):
exactly the eight declared fields, no methods. `proc` is typed
`subprocess.Popen` in the source but `create_session` always stores `None`;
we model the slot as an optional pid. -/
structure Session where
  id : String
  login : Int
  server : String
  proc : Option Nat
  port : Option Nat
  mt5_path : Path
  created_at : Time
  last_accessed : Time
deriving Repr, DecidableEq

/-- The field names declared in the `Session` NamedTuple class body, in
declaration order. -/
def sessionFields : List String :=
  ["id", "login", "server", "proc", "port", "mt5_path", "created_at", "last_accessed"]

/-- Attribute lookup on a `Session` instance.  The class body declares only the
eight data fields and no methods, so any other attribute name resolves to
nothing (Python raises `AttributeError`). -/
def sessionGetAttr (s : Session) (name : String) : Option PyValue :=
  if name = "id" then some (.str s.id)
  else if name = "login" then some (.int s.login)
  else if name = "server" then some (.str s.server)
  else if name = "proc" then
    some (match s.proc with | Option.none => .noneV | some p => .int p)
  else if name = "port" then
    some (match s.port with | Option.none => .noneV | some p => .int p)
  else if name = "mt5_path" then some (.path s.mt5_path)
  else if name = "created_at" then some (.int s.created_at)
  else if name = "last_accessed" then some (.int s.last_accessed)
  else Option.none

/-- One running OS process: pid and executable path. -/
structure OsProc where
  pid : Nat
  exe : Path
deriving Repr, DecidableEq

/-- Registry lookup (`self._sessions[sid]` / `sid in self._sessions`). -/
def dictLookup (m : List (String × Session)) (k : String) : Option Session :=
  match m with
  | [] => Option.none
  | (k', v) :: rest => if k' = k then some v else dictLookup rest k

/-- Python dict assignment `m[k] = v`: replace in place, or append. -/
def dictSet (m : List (String × Session)) (k : String) (v : Session) :
    List (String × Session) :=
  match m with
  | [] => [(k, v)]
  | (k', v') :: rest => if k' = k then (k, v) :: rest else (k', v') :: dictSet rest k v

/-- Python `m.pop(k)`: remove the (unique) binding of `k`. -/
def dictErase (m : List (String × Session)) (k : String) : List (String × Session) :=
  match m with
  | [] => []
  | (k', v') :: rest => if k' = k then rest else (k', v') :: dictErase rest k

/-- The state owned by one `SessionManager` process, together with the
OS-level state its methods act on. -/
structure ManagerState where
  sessions : List (String × Session)
  base_path : Path
  portable_mt5_path : Path
  mt5_install_dir : Path
  fs : FS
  procs : List OsProc
  mt5Initialized : Bool
deriving Repr, DecidableEq

/-- `os.path.join(self.base_path, sid)` as used throughout the manager. -/
def session_dir_of (st : ManagerState) (sid : String) : Path :=
  st.base_path ++ [sid]

/-- `self.template_dir = os.path.join(base_path, "_template")` (line 387). -/
def template_dir_of (st : ManagerState) : Path :=
  st.base_path ++ ["_template"]

/-- `SessionManager.get_session` (lines 1077-1095): raises `KeyError` for an
unknown id; otherwise replaces the stored entry by one whose `last_accessed`
is the current time and returns it. -/
def get_session (st : ManagerState) (now : Time) (sid : String) :
    Except PyError (Session × ManagerState) :=
  match dictLookup st.sessions sid with
  | Option.none => .error (.keyError ("Session " ++ sid ++ " not found"))
  | some s =>
    let s' := { s with last_accessed := now }
    .ok (s', { st with sessions := dictSet st.sessions sid s' })

/-- `SessionManager.close_session` (lines 1097-1144): pop the entry, shut the
vendor library down, terminate `session.proc` if it is set, then remove the
directory `<base_path>/<sid>` if it exists.  Returns `False` immediately,
with no mutation, when the id is unknown. -/
def close_session (st : ManagerState) (sid : String) : Bool × ManagerState :=
  match dictLookup st.sessions sid with
  | Option.none => (false, st)
  | some s =>
    let st1 : ManagerState :=
      { st with sessions := dictErase st.sessions sid, mt5Initialized := false }
    let st2 : ManagerState :=
      match s.proc with
      | some pid => { st1 with procs := st1.procs.filter (fun p => p.pid != pid) }
      | Option.none => st1
    let sdir := session_dir_of st sid
    let st3 : ManagerState :=
      if pathExists st2.fs sdir then { st2 with fs := rmtree st2.fs sdir } else st2
    (true, st3)

/-- `SessionManager.cleanup_old_sessions` (lines 1161-1182): close every
session whose age since `last_accessed` strictly exceeds the threshold and
return how many were closed (an `int`, per the source and its docstring). -/
def cleanup_old_sessions (st : ManagerState) (now : Time) (max_age_seconds : Nat) :
    Nat × ManagerState :=
  let sessions_to_close :=
    (st.sessions.filter (fun kv => now - kv.2.last_accessed > max_age_seconds)).map (·.1)
  let st' := sessions_to_close.foldl (fun acc sid => (close_session acc sid).2) st
  (sessions_to_close.length, st')

/-- The background task `cleanup_old_sessions` in `main.py` (lines 210-218):
it calls `len()` on the manager's return value, which is an `int`; when the
count is nonzero this raises `TypeError`, caught by the surrounding
`except` and logged. -/
def main_cleanup_old_sessions (st : ManagerState) (now : Time) (maxAge : Nat) :
    Option PyError × ManagerState :=
  let (count, st') := cleanup_old_sessions st now maxAge
  if count ≠ 0 then (some (.typeError "object of type 'int' has no len()"), st')
  else (Option.none, st')

/-- The route `execute_command` in `app/routes.py` (lines 70-86), after token
checking: look the session up (the manager's `get_session` raises `KeyError`
for unknown ids, which propagates out of the route), then evaluate
`session.send_command(command)`.  A `Session` NamedTuple instance is truthy,
so the `if not session` guard never fires on a found session; the attribute
lookup of `send_command` decides the outcome.  The websocket endpoint in
`main.py` (lines 249-255) dispatches identically. -/
def routes_execute_command (st : ManagerState) (now : Time) (sid : String) :
    Except PyError PyValue :=
  match get_session st now sid with
  | .error e => .error e
  | .ok (session, _) =>
    match sessionGetAttr session "send_command" with
    | Option.none => .error (.attributeError "send_command")
    | some _ => .error (.typeError "object is not callable")

/-- The subdirectories created under `<session_dir>/MQL5` (line 970). -/
def mql5Subdirs : List String := ["Logs", "Files", "Experts", "Include", "Libraries", "Images"]

/-- The directory provisioning at the top of `create_session` (lines 959-971):
`makedirs(session_dir, exist_ok=True)` — an existing directory is reused,
not removed — then the `MQL5` tree. -/
def provision_dirs (fs : FS) (session_dir : Path) : FS :=
  let fs1 := makedirs fs session_dir
  let mt5_data_dir := session_dir ++ ["MQL5"]
  let fs2 := makedirs fs1 mt5_data_dir
  mql5Subdirs.foldl (fun f d => makedirs f (mt5_data_dir ++ [d])) fs2

/-- File names copied from the template root (lines 1280-1285). -/
def templateRootFiles : List String := ["terminal64.exe", "portable.ini", "portable_mode"]

/-- Login-related config files copied from the installation (lines 1301-1308). -/
def configFilesToCopy : List String :=
  ["connection_settings.ini", "accounts_settings.ini", "last_profile.ini",
   "startup.ini", "login.ini", "mt5.ini"]

/-- Account data files/directories copied from the installation root
(lines 1329-1342). -/
def accountFilesToCopy : List String :=
  ["accounts.dat", "bases", "logs", "cache", "tester", "profiles.dat",
   "symbols.dat", "symbols.sel", "experts.dat", "watchlist.dat",
   "metatester.ini", "metaeditor.ini"]

/-- `SessionManager._copy_template_files(template_dir, target_dir)` (lines
1264-1374), called with `target_dir = <session_dir>/MQL5`.  Note that
`mql5_dst = os.path.dirname(target_dir)` is the session directory itself, so
when the template has an `MQL5` subtree the whole session directory is
removed recursively and replaced by a copy of that subtree. -/
def copy_template_files (st : ManagerState) (fs : FS) (template_dir target_dir : Path) : FS :=
  let mql5_src := template_dir ++ ["MQL5"]
  let mql5_dst := dirname target_dir
  let fsA := if pathExists fs mql5_src then
      let fs' := if pathExists fs mql5_dst then rmtree fs mql5_dst else fs
      copytree fs' mql5_src mql5_dst
    else fs
  let fsB := templateRootFiles.foldl (fun f n =>
      if pathExists f (template_dir ++ [n]) then
        copy2 f (template_dir ++ [n]) (mql5_dst ++ [n])
      else f) fsA
  let session_base_dir := dirname target_dir
  let template_accounts_dat := template_dir ++ ["Config", "accounts.dat"]
  let fsC := if pathExists fsB template_accounts_dat then
      copy2 fsB template_accounts_dat (session_base_dir ++ ["accounts.dat"])
    else fsB
  let src_config_dir := st.mt5_install_dir ++ ["Config"]
  let target_config_dir := session_base_dir ++ ["Config"]
  let fsD := makedirs fsC target_config_dir
  let fsE := configFilesToCopy.foldl (fun f n =>
      if pathExists f (src_config_dir ++ [n]) then
        copy2 f (src_config_dir ++ [n]) (target_config_dir ++ [n])
      else f) fsD
  let has_accounts_dat := pathExists fsE (session_base_dir ++ ["accounts.dat"])
  accountFilesToCopy.foldl (fun f n =>
      if n = "accounts.dat" && has_accounts_dat then f
      else if pathExists f (st.mt5_install_dir ++ [n]) then
        if isDirAt f (st.mt5_install_dir ++ [n]) then
          let f' := if pathExists f (session_base_dir ++ [n]) then
              rmtree f (session_base_dir ++ [n]) else f
          copytree f' (st.mt5_install_dir ++ [n]) (session_base_dir ++ [n])
        else copy2 f (st.mt5_install_dir ++ [n]) (session_base_dir ++ [n])
      else f) fsE

/-- `SessionManager._create_mt5_config` (lines 1376-1527): ensures the
`Config` directory and writes the ini files.  Only file creation is
modelled; the ini text contents (which differ between the two branches) are
not. -/
def create_mt5_config (fs : FS) (session_dir : Path) : FS :=
  let config_dir := session_dir ++ ["Config"]
  let fs1 := makedirs fs config_dir
  let has_login_files :=
    pathExists fs1 (config_dir ++ ["connection_settings.ini"]) &&
    pathExists fs1 (config_dir ++ ["accounts_settings.ini"]) &&
    pathExists fs1 (config_dir ++ ["login.ini"])
  let fs2 := writeFile fs1 (config_dir ++ ["terminal.ini"])
  let fs3 := if has_login_files then fs2
    else writeFile (writeFile fs2 (config_dir ++ ["connection_settings.ini"]))
           (config_dir ++ ["login.ini"])
  let fs4 := writeFile fs3 (session_dir ++ ["portable_mode"])
  let fs5 := writeFile fs4 (config_dir ++ ["access.ini"])
  writeFile fs5 (config_dir ++ ["startup.ini"])

/-- `SessionManager._get_mt5_exec_path` (lines 1529-1546): returns
`<base>/<sid>/terminal64.exe`, copying the portable executable there when it
is missing; if that copy fails because the source executable is absent, the
exception is caught and `None` is returned. -/
def get_mt5_exec_path (st : ManagerState) (fs : FS) (sid : String) :
    Option Path × FS :=
  let session_dir := session_dir_of st sid
  let p := session_dir ++ ["terminal64.exe"]
  if pathExists fs p then (some p, fs)
  else if pathExists fs st.portable_mt5_path then (some p, copy2 fs st.portable_mt5_path p)
  else (Option.none, fs)

/-- The state effect of `SessionManager._run_mt5_process` (lines 503-749):
when `<session_dir>/terminal64.exe` is missing it returns `False` without
spawning; otherwise `subprocess.Popen` starts the terminal process.  The
monitoring, logging and `_current_process` bookkeeping that follow do not
affect the modelled state; a spawned process dying on its own is outside
the model. -/
def run_mt5_process (fs : FS) (procs : List OsProc) (session_dir : Path)
    (spawnedPid : Nat) : Bool × List OsProc :=
  let mt5_exe := session_dir ++ ["terminal64.exe"]
  if pathExists fs mt5_exe then (true, ⟨spawnedPid, mt5_exe⟩ :: procs)
  else (false, procs)

/-- `SessionManager._terminate_mt5_process` (lines 1199-1231).  For an
unregistered id it logs a warning and returns `False` without mutating
anything.  For a registered session it evaluates `session.proc.poll()` —
but the registered sessions always carry `proc=None`, so that expression
raises `AttributeError` (swallowed by the caller in `create_session`). -/
def terminate_mt5_process (st : ManagerState) (sid : String) :
    Except PyError (Bool × ManagerState) :=
  match dictLookup st.sessions sid with
  | Option.none => .ok (false, st)
  | some s =>
    match s.proc with
    | Option.none => .error (.attributeError "poll")
    | some pid =>
      if st.procs.any (fun p => p.pid == pid) then
        .ok (true, { st with procs := st.procs.filter (fun p => p.pid != pid),
                             sessions := dictErase st.sessions sid })
      else
        .ok (true, { st with sessions := dictErase st.sessions sid })

/-- The filesystem state after the provisioning stage of `create_session`
(lines 959-979): create the session directory and the `MQL5` tree, copy the
template files when the template directory exists, then write the config
files. -/
def provisioned_fs (st : ManagerState) (sessionId : String) : FS :=
  let session_dir := session_dir_of st sessionId
  let fs1 := provision_dirs st.fs session_dir
  let fs2 := if pathExists fs1 (template_dir_of st) then
      copy_template_files st fs1 (template_dir_of st) (session_dir ++ ["MQL5"])
    else fs1
  create_mt5_config fs2 session_dir

/-- `SessionManager.create_session` (lines 952-1075).  The generated uuid,
the pid of the terminal spawned by `_run_mt5_process` and the outcome of
`_initialize_mt5` are parameters.  Every `return` builds a result dict; the
session is registered (with `proc=None`, `port=None`) only on success, and
on an init failure the directory is deliberately kept ("Keep session
directory for diagnostics", line 1027). -/
def create_session (st : ManagerState) (login : Int) (password : String)
    (server : String) (sessionId : String) (now : Time) (spawnedPid : Nat)
    (initSuccess : Bool) (initErrorMessage : String) :
    CreateReturn × ManagerState :=
  let _ := password
  let session_dir := session_dir_of st sessionId
  let res := get_mt5_exec_path st (provisioned_fs st sessionId) sessionId
  match res.1 with
  | Option.none =>
    (.dict [("success", .bool false),
            ("error", .str "MT5 executable not found"),
            ("session_id", .str sessionId),
            ("session_dir", .path session_dir)],
     { st with fs := res.2 })
  | some mt5_exec_path =>
    if !(pathExists res.2 mt5_exec_path) then
      (.dict [("success", .bool false),
              ("error", .str "MT5 executable not found"),
              ("session_id", .str sessionId),
              ("session_dir", .path session_dir)],
       { st with fs := res.2 })
    else
      let spawn := run_mt5_process res.2 st.procs session_dir spawnedPid
      let stRun : ManagerState := { st with fs := res.2, procs := spawn.2 }
      if !initSuccess then
        let stTerm := match terminate_mt5_process stRun sessionId with
          | .ok r => r.2
          | .error _ => stRun
        (.dict [("success", .bool false),
                ("error", .str initErrorMessage),
                ("session_id", .str sessionId),
                ("session_dir", .path session_dir),
                ("mt5_path", .path mt5_exec_path)],
         stTerm)
      else
        let s : Session :=
          { id := sessionId, login := login, server := server,
            proc := Option.none, port := Option.none,
            mt5_path := mt5_exec_path, created_at := now, last_accessed := now }
        (.dict [("success", .bool true),
                ("session_id", .str sessionId),
                ("session_dir", .path session_dir),
                ("mt5_path", .path mt5_exec_path)],
         { stRun with sessions := dictSet stRun.sessions sessionId s })

/-! ### The Worker process (`src/worker.py`) -/

/-- A parsed request object: `req.get("type")` and `req.get("params", {})`. -/
structure WorkerReq where
  reqType : Option String
  params : List (String × PyValue)
deriving Repr, DecidableEq

/-- One line read from the Worker's input stream: either it fails to parse as
JSON, or it yields a request object. -/
inductive WorkerLine where
  | malformed (raw : String)
  | parsed (req : WorkerReq)
deriving Repr, DecidableEq

/-- One response line written by the Worker. -/
structure WorkerResp where
  respType : Option String
  success : Bool
  result : Option PyValue
  error : Option String
deriving Repr, DecidableEq

/-- The outcome of one synchronous vendor-library call, abstracted as an
oracle: success flag, optional result, optional error string. -/
abbrev Vendor := String → List (String × PyValue) → Bool × Option PyValue × Option String

/-- The command names the Worker's dispatch switch knows (lines 115-166). -/
def knownCommands : List String :=
  ["candles", "order_send", "quote", "positions_get", "symbol_select"]

/-- The response to a JSON parse failure (line 103): no `type` field. -/
def parseErrorResp (raw : String) : WorkerResp :=
  { respType := Option.none, success := false, result := Option.none,
    error := some ("JSONデコードエラー: " ++ raw) }

/-- The Worker's dispatch switch for a parsed, non-terminate request (lines
110-170): a known command is executed through the vendor library and yields
one response; an unknown or missing `type` yields one error response.
Vendor-side exceptions are folded into the oracle's error outcome (the
source catches them and still emits exactly one response). -/
def worker_dispatch (vendor : Vendor) (req : WorkerReq) : WorkerResp :=
  match req.reqType with
  | Option.none =>
    { respType := Option.none, success := false, result := Option.none,
      error := some "不明なコマンド: None" }
  | some t =>
    if knownCommands.contains t then
      let out := vendor t req.params
      { respType := some t, success := out.1, result := out.2.1, error := out.2.2 }
    else
      { respType := some t, success := false, result := Option.none,
        error := some ("不明なコマンド: " ++ t) }

/-- Does this input line carry `{"type": "terminate"}`? -/
def isTerminate : WorkerLine → Bool
  | .malformed _ => false
  | .parsed req => req.reqType == some "terminate"

/-- The single response produced for one non-terminate input line. -/
def worker_respond (vendor : Vendor) : WorkerLine → WorkerResp
  | .malformed raw => parseErrorResp raw
  | .parsed req => worker_dispatch vendor req

/-- The Worker's steady-state loop (lines 94-184), after the init line has
been emitted: reads lines until EOF (end of the list), emits one error line
and continues on a parse failure, breaks without responding on
`{"type":"terminate"}`, and otherwise emits exactly one dispatch response. -/
def worker_loop (vendor : Vendor) : List WorkerLine → List WorkerResp
  | [] => []
  | l :: rest =>
    match l with
    | .malformed raw => parseErrorResp raw :: worker_loop vendor rest
    | .parsed req =>
      if req.reqType == some "terminate" then []
      else worker_dispatch vendor req :: worker_loop vendor rest

/-! ### Concrete states used by witnesses and counterexamples -/

/-- A small concrete manager state: empty registry, a base directory and a
portable MT5 installation; no template has been built yet. -/
def demoBase : ManagerState :=
  { sessions := []
    base_path := ["base"]
    portable_mt5_path := ["install", "terminal64.exe"]
    mt5_install_dir := ["install"]
    fs := [⟨["base"], true⟩, ⟨["install"], true⟩, ⟨["install", "terminal64.exe"], false⟩]
    procs := []
    mt5Initialized := false }

/-- A registered session as `create_session` stores it: `proc = None`. -/
def demoSession : Session :=
  { id := "s1", login := 42, server := "srv-A", proc := Option.none,
    port := Option.none, mt5_path := ["base", "s1", "terminal64.exe"],
    created_at := 10, last_accessed := 10 }

/-- `demoBase` with `demoSession` registered and its directory on disk. -/
def demoReg : ManagerState :=
  { demoBase with
    sessions := [("s1", demoSession)]
    fs := ⟨["base", "s1"], true⟩ :: ⟨["base", "s1", "terminal64.exe"], false⟩ :: demoBase.fs }

/-- The state after a successful `create_session` on `demoBase`: id `"s1"`,
terminal spawned with pid 777. -/
def afterCreate : ManagerState :=
  (create_session demoBase 42 "pw" "srv-A" "s1" 100 777 true "").2

/-- A `create_session` run whose `_initialize_mt5` fails with a vendor
message (id `"s7"`, terminal spawned with pid 888). -/
def initFailRun : CreateReturn × ManagerState :=
  create_session demoBase 0 "" "" "s7" 100 888 false "invalid account"

/-- A registry for the reaper: at `now = 100` and threshold 50 seconds,
`"old"` (age 100) is overdue, `"edge"` (age exactly 50) and `"fresh"`
(age 10) are not. -/
def reaperSt : ManagerState :=
  { demoBase with
    sessions := [("old", { demoSession with id := "old", last_accessed := 0 }),
                 ("edge", { demoSession with id := "edge", last_accessed := 50 }),
                 ("fresh", { demoSession with id := "fresh", last_accessed := 90 })] }

/-- `demoBase` with a leftover directory `base/abc` holding a stale file
from an earlier run. -/
def staleSt : ManagerState :=
  { demoBase with
    fs := ⟨["base", "abc"], true⟩ :: ⟨["base", "abc", "stale.txt"], false⟩ :: demoBase.fs }

/-- A successful `create_session` on `staleSt` whose generated id is `"abc"`,
colliding with the leftover directory. -/
def staleRun : CreateReturn × ManagerState :=
  create_session staleSt 7 "pw" "srv-B" "abc" 100 999 true ""

/-! ### Registry (dict) lemmas -/

theorem dictLookup_dictSet_self (m : List (String × Session)) (k : String) (v : Session) :
    dictLookup (dictSet m k v) k = some v := by
  induction m with
  | nil => simp [dictSet, dictLookup]
  | cons kv rest ih =>
    obtain ⟨k', v'⟩ := kv
    by_cases hk : k' = k
    · simp [dictSet, dictLookup, hk]
    · simp [dictSet, dictLookup, hk, ih]

theorem dictLookup_dictSet_ne (m : List (String × Session)) (k kq : String) (v : Session)
    (h : kq ≠ k) : dictLookup (dictSet m k v) kq = dictLookup m kq := by
  induction m with
  | nil => simp [dictSet, dictLookup, Ne.symm h]
  | cons kv rest ih =>
    obtain ⟨k', v'⟩ := kv
    by_cases hk : k' = k
    · subst hk
      simp [dictSet, dictLookup, Ne.symm h]
    · simp [dictSet, dictLookup, hk, ih]

theorem dictLookup_eq_none_of_not_mem (m : List (String × Session)) (k : String)
    (h : k ∉ m.map Prod.fst) : dictLookup m k = Option.none := by
  induction m with
  | nil => rfl
  | cons kv rest ih =>
    obtain ⟨k', v'⟩ := kv
    simp only [List.map_cons, List.mem_cons] at h
    push_neg at h
    simp [dictLookup, Ne.symm h.1, ih h.2]

theorem dictLookup_dictErase_self (m : List (String × Session)) (k : String)
    (h : (m.map Prod.fst).Nodup) : dictLookup (dictErase m k) k = Option.none := by
  induction m with
  | nil => rfl
  | cons kv rest ih =>
    obtain ⟨k', v'⟩ := kv
    simp only [List.map_cons, List.nodup_cons] at h
    by_cases hk : k' = k
    · subst hk
      simpa [dictErase] using dictLookup_eq_none_of_not_mem rest k' h.1
    · simp [dictErase, dictLookup, hk, ih h.2]

/-! ### Filesystem lemmas -/

theorem pathExists_makedirs_self (fs : FS) (p : Path) :
    pathExists (makedirs fs p) p = true := by
  unfold makedirs
  split
  · assumption
  · simp [pathExists]

theorem pathExists_writeFile_self (fs : FS) (p : Path) :
    pathExists (writeFile fs p) p = true := by
  unfold writeFile
  split
  · assumption
  · simp [pathExists]

theorem pathExists_makedirs_mono (fs : FS) (p q : Path) (h : pathExists fs q = true) :
    pathExists (makedirs fs p) q = true := by
  unfold makedirs
  split
  · exact h
  · simp only [pathExists, List.any_cons, Bool.or_eq_true]
    exact Or.inr h

theorem pathExists_writeFile_mono (fs : FS) (p q : Path) (h : pathExists fs q = true) :
    pathExists (writeFile fs p) q = true := by
  unfold writeFile
  split
  · exact h
  · simp only [pathExists, List.any_cons, Bool.or_eq_true]
    exact Or.inr h

theorem pathExists_makedirs_ne (fs : FS) (p q : Path) (h : q ≠ p) :
    pathExists (makedirs fs p) q = pathExists fs q := by
  unfold makedirs
  split
  · rfl
  · simp only [pathExists, List.any_cons]
    have : (p == q) = false := by
      simp [beq_eq_false_iff_ne]
      exact fun he => h he.symm
    simp [this]

theorem ne_of_length_ne {p q : Path} (h : p.length ≠ q.length) : p ≠ q :=
  fun he => h (by rw [he])

theorem pathExists_iff (fs : FS) (q : Path) :
    pathExists fs q = true ↔ ∃ e ∈ fs, e.path = q := by
  simp [pathExists, List.any_eq_true, beq_iff_eq]

theorem pathExists_copy2_mono (fs : FS) (src dst q : Path)
    (h : pathExists fs q = true) :
    pathExists (copy2 fs src dst) q = true :=
  pathExists_writeFile_mono fs dst q h

theorem inTree_refl (p : Path) : inTree p p = true := by
  induction p with
  | nil => rfl
  | cons s rest ih => simp [inTree, ih]

theorem inTree_length_le (root q : Path) (h : inTree root q = true) :
    root.length ≤ q.length := by
  induction q generalizing root with
  | nil =>
    cases root with
    | nil => simp
    | cons r rr => simp [inTree, List.isEmpty] at h
  | cons s rest ih =>
    cases root with
    | nil => simp
    | cons r rr =>
      simp only [inTree] at h
      by_cases hr : r = s
      · rw [if_pos hr] at h
        simpa using ih rr h
      · rw [if_neg hr] at h
        exact absurd h (by simp)

theorem inTree_of_append (a b q : Path) (h : inTree (a ++ b) q = true) :
    inTree a q = true := by
  induction a generalizing q with
  | nil =>
    cases q <;> rfl
  | cons r rr ih =>
    cases q with
    | nil => simp [inTree, List.isEmpty] at h
    | cons s rest =>
      simp only [List.cons_append, inTree] at h ⊢
      by_cases hr : r = s
      · rw [if_pos hr] at h ⊢
        exact ih rest h
      · rw [if_neg hr] at h
        exact absurd h (by simp)

theorem inTree_append_extend_false (a b q : Path) (h : inTree a q = false) :
    inTree (a ++ b) q = false := by
  cases hc : inTree (a ++ b) q with
  | false => rfl
  | true => exact absurd (inTree_of_append a b q hc) (by simp [h])

theorem inTree_append_singleton_false (p : Path) (x : String) :
    inTree (p ++ [x]) p = false := by
  cases hc : inTree (p ++ [x]) p with
  | false => rfl
  | true =>
    exfalso
    have hl := inTree_length_le _ _ hc
    simp [List.length_append] at hl

theorem inTree_append_left (b p q : Path) :
    inTree (b ++ p) (b ++ q) = inTree p q := by
  induction b with
  | nil => rfl
  | cons s rest ih => simp [inTree, ih]

theorem dirname_append_singleton (p : Path) (x : String) :
    dirname (p ++ [x]) = p := by
  simp [dirname]

theorem pathExists_rmtree_of_not_inTree (fs : FS) (root q : Path)
    (hq : inTree root q = false) (h : pathExists fs q = true) :
    pathExists (rmtree fs root) q = true := by
  rw [pathExists_iff] at h ⊢
  obtain ⟨e, he, hep⟩ := h
  exact ⟨e, List.mem_filter.mpr ⟨he, by simp [hep, hq]⟩, hep⟩

theorem pathExists_copytree_mono (fs : FS) (src dst q : Path)
    (h : pathExists fs q = true) :
    pathExists (copytree fs src dst) q = true := by
  rw [pathExists_iff] at h ⊢
  obtain ⟨e, he, hep⟩ := h
  exact ⟨e, List.mem_append.mpr (Or.inr he), hep⟩

theorem pathExists_copytree_dst (fs : FS) (src dst : Path)
    (h : pathExists fs src = true) :
    pathExists (copytree fs src dst) dst = true := by
  rw [pathExists_iff] at h ⊢
  obtain ⟨e, he, hep⟩ := h
  refine ⟨⟨dst, e.isDir⟩, List.mem_append.mpr (Or.inl ?_), rfl⟩
  apply List.mem_filterMap.mpr
  refine ⟨e, he, ?_⟩
  rw [hep, inTree_refl]
  simp [relocate, List.drop_length]

theorem pathExists_foldl_preserve {α : Type} (step : FS → α → FS) (l : List α)
    (fs : FS) (q : Path)
    (hstep : ∀ f n, n ∈ l → pathExists f q = true → pathExists (step f n) q = true)
    (h : pathExists fs q = true) :
    pathExists (l.foldl step fs) q = true := by
  induction l generalizing fs with
  | nil => exact h
  | cons n l ih =>
    exact ih _ (fun f m hm => hstep f m (List.mem_cons_of_mem _ hm))
      (hstep fs n (List.mem_cons_self _ _) h)

theorem append_singleton_ne {b : Path} {x y : String} (h : x ≠ y) :
    b ++ [x] ≠ b ++ [y] := by
  intro he
  have h2 := congrArg (List.drop b.length) he
  rw [List.drop_left, List.drop_left] at h2
  simp only [List.cons.injEq, and_true] at h2
  exact h h2

theorem provision_dirs_mono (fs : FS) (sd q : Path) (h : pathExists fs q = true) :
    pathExists (provision_dirs fs sd) q = true := by
  simp only [provision_dirs, mql5Subdirs, List.foldl]
  iterate 8 apply pathExists_makedirs_mono
  exact h

theorem provision_dirs_self (fs : FS) (sd : Path) :
    pathExists (provision_dirs fs sd) sd = true := by
  simp only [provision_dirs, mql5Subdirs, List.foldl]
  iterate 7 apply pathExists_makedirs_mono
  exact pathExists_makedirs_self fs sd

theorem provision_dirs_pathExists_other (fs : FS) (sd q : Path)
    (h0 : q ≠ sd) (h1 : q ≠ sd ++ ["MQL5"]) (h2 : ∀ d, q ≠ (sd ++ ["MQL5"]) ++ [d]) :
    pathExists (provision_dirs fs sd) q = pathExists fs q := by
  simp only [provision_dirs, mql5Subdirs, List.foldl]
  rw [pathExists_makedirs_ne _ _ _ (h2 _), pathExists_makedirs_ne _ _ _ (h2 _),
      pathExists_makedirs_ne _ _ _ (h2 _), pathExists_makedirs_ne _ _ _ (h2 _),
      pathExists_makedirs_ne _ _ _ (h2 _), pathExists_makedirs_ne _ _ _ (h2 _),
      pathExists_makedirs_ne _ _ _ h1, pathExists_makedirs_ne _ _ _ h0]

theorem create_mt5_config_mono (fs : FS) (sd q : Path) (h : pathExists fs q = true) :
    pathExists (create_mt5_config fs sd) q = true := by
  simp only [create_mt5_config]
  split
  all_goals
    repeat first
      | exact h
      | apply pathExists_writeFile_mono
      | apply pathExists_makedirs_mono

theorem get_mt5_exec_path_mono (st : ManagerState) (fs : FS) (sid : String) (q : Path)
    (h : pathExists fs q = true) :
    pathExists (get_mt5_exec_path st fs sid).2 q = true := by
  simp only [get_mt5_exec_path]
  split_ifs
  · exact h
  · exact pathExists_writeFile_mono _ _ _ h
  · exact h

theorem get_mt5_exec_path_finds (st : ManagerState) (fs : FS) (sid : String)
    (h : pathExists fs st.portable_mt5_path = true) :
    (get_mt5_exec_path st fs sid).1 =
      some (session_dir_of st sid ++ ["terminal64.exe"]) ∧
    pathExists (get_mt5_exec_path st fs sid).2
      (session_dir_of st sid ++ ["terminal64.exe"]) = true := by
  simp only [get_mt5_exec_path]
  split_ifs with h1
  · exact ⟨rfl, h1⟩
  · exact ⟨rfl, pathExists_writeFile_self _ _⟩

theorem run_mt5_process_spawns (fs : FS) (procs : List OsProc) (sd : Path) (pid : Nat)
    (h : pathExists fs (sd ++ ["terminal64.exe"]) = true) :
    run_mt5_process fs procs sd pid = (true, ⟨pid, sd ++ ["terminal64.exe"]⟩ :: procs) := by
  simp [run_mt5_process, h]

theorem terminate_noop_of_unknown (st : ManagerState) (sid : String)
    (h : dictLookup st.sessions sid = Option.none) :
    terminate_mt5_process st sid = .ok (false, st) := by
  unfold terminate_mt5_process
  rw [h]

theorem terminate_match_keeps_fs (st : ManagerState) (sid : String) :
    (match terminate_mt5_process st sid with
      | .ok r => r.2
      | .error _ => st).fs = st.fs := by
  unfold terminate_mt5_process
  cases h : dictLookup st.sessions sid with
  | none => rfl
  | some s =>
    cases hp : s.proc with
    | none => simp [hp]
    | some pid =>
      by_cases hc : (st.procs.any fun p => p.pid == pid) = true
      · simp [hp, hc]
      · simp [hp, hc]

theorem provision_no_template (st : ManagerState) (sid : String)
    (h_tpl : pathExists st.fs (template_dir_of st) = false)
    (h_sid : sid ≠ "_template") :
    pathExists (provision_dirs st.fs (session_dir_of st sid))
      (template_dir_of st) = false := by
  rw [provision_dirs_pathExists_other]
  · exact h_tpl
  · exact append_singleton_ne fun he => h_sid he.symm
  · apply ne_of_length_ne
    simp [session_dir_of, template_dir_of]
  · intro d
    apply ne_of_length_ne
    simp [session_dir_of, template_dir_of]

theorem ne_session_append (sid : String) : sid ≠ "session_" ++ sid := by
  intro h
  have hl := congrArg String.length h
  rw [String.length_append] at hl
  have h8 : ("session_" : String).length = 8 := by decide
  omega

theorem provisioned_fs_eq_of_no_template (st : ManagerState) (sid : String)
    (h_tpl : pathExists (provision_dirs st.fs (session_dir_of st sid))
      (template_dir_of st) = false) :
    provisioned_fs st sid =
      create_mt5_config (provision_dirs st.fs (session_dir_of st sid))
        (session_dir_of st sid) := by
  simp [provisioned_fs, h_tpl]

theorem provisioned_fs_mono_no_template (st : ManagerState) (sid : String) (q : Path)
    (h_tpl : pathExists st.fs (template_dir_of st) = false)
    (h_sid : sid ≠ "_template")
    (hq : pathExists st.fs q = true) :
    pathExists (provisioned_fs st sid) q = true := by
  rw [provisioned_fs_eq_of_no_template st sid (provision_no_template st sid h_tpl h_sid)]
  exact create_mt5_config_mono _ _ _ (provision_dirs_mono _ _ _ hq)

theorem pathExists_ite_copy2_mono (c : Prop) [Decidable c] (fs : FS) (a b q : Path)
    (h : pathExists fs q = true) :
    pathExists (if c then copy2 fs a b else fs) q = true := by
  split_ifs
  · exact pathExists_copy2_mono _ _ _ _ h
  · exact h

theorem copy_template_files_preserves_outside (st : ManagerState) (fs : FS)
    (tpl target q : Path)
    (hq : pathExists fs q = true)
    (hout : inTree (dirname target) q = false) :
    pathExists (copy_template_files st fs tpl target) q = true := by
  simp only [copy_template_files]
  apply pathExists_foldl_preserve
  · intro f n hn hf
    split_ifs <;>
      first
        | exact hf
        | exact pathExists_copy2_mono _ _ _ _ hf
        | exact pathExists_copytree_mono _ _ _ _
            (pathExists_rmtree_of_not_inTree _ _ _
              (inTree_append_extend_false _ _ _ hout) hf)
        | exact pathExists_copytree_mono _ _ _ _ hf
  · apply pathExists_foldl_preserve
    · intro f n hn hf
      split_ifs <;> first | exact hf | exact pathExists_copy2_mono _ _ _ _ hf
    · apply pathExists_makedirs_mono
      apply pathExists_ite_copy2_mono
      apply pathExists_foldl_preserve
      · intro f n hn hf
        split_ifs <;> first | exact hf | exact pathExists_copy2_mono _ _ _ _ hf
      · split_ifs with ha hb
        · exact pathExists_copytree_mono _ _ _ _
            (pathExists_rmtree_of_not_inTree _ _ _ hout hq)
        · exact pathExists_copytree_mono _ _ _ _ hq
        · exact hq

theorem copy_template_files_keeps_dirname (st : ManagerState) (fs : FS)
    (tpl sd : Path)
    (hsd : pathExists fs sd = true)
    (hsrc : inTree sd (tpl ++ ["MQL5"]) = false) :
    pathExists (copy_template_files st fs tpl (sd ++ ["MQL5"])) sd = true := by
  simp only [copy_template_files, dirname_append_singleton]
  apply pathExists_foldl_preserve
  · intro f n hn hf
    split_ifs <;>
      first
        | exact hf
        | exact pathExists_copy2_mono _ _ _ _ hf
        | exact pathExists_copytree_mono _ _ _ _
            (pathExists_rmtree_of_not_inTree _ _ _
              (inTree_append_singleton_false _ _) hf)
        | exact pathExists_copytree_mono _ _ _ _ hf
  · apply pathExists_foldl_preserve
    · intro f n hn hf
      split_ifs <;> first | exact hf | exact pathExists_copy2_mono _ _ _ _ hf
    · apply pathExists_makedirs_mono
      apply pathExists_ite_copy2_mono
      apply pathExists_foldl_preserve
      · intro f n hn hf
        split_ifs <;> first | exact hf | exact pathExists_copy2_mono _ _ _ _ hf
      · split_ifs with ha
        · exact pathExists_copytree_dst _ _ _
            (pathExists_rmtree_of_not_inTree _ _ _ hsrc ha)
        · exact hsd

theorem inTree_session_template_false (b : Path) (sid : String)
    (h : sid ≠ "_template") :
    inTree (b ++ [sid]) ((b ++ ["_template"]) ++ ["MQL5"]) = false := by
  rw [List.append_assoc, inTree_append_left]
  simp [inTree, h]

theorem provisioned_fs_portable (st : ManagerState) (sid : String)
    (h_port : pathExists st.fs st.portable_mt5_path = true)
    (h_sep : inTree (session_dir_of st sid) st.portable_mt5_path = false) :
    pathExists (provisioned_fs st sid) st.portable_mt5_path = true := by
  simp only [provisioned_fs]
  apply create_mt5_config_mono
  split
  · apply copy_template_files_preserves_outside
    · exact provision_dirs_mono _ _ _ h_port
    · rw [dirname_append_singleton]
      exact h_sep
  · exact provision_dirs_mono _ _ _ h_port

theorem provisioned_fs_keeps_session_dir (st : ManagerState) (sid : String)
    (h_sid : sid ≠ "_template") :
    pathExists (provisioned_fs st sid) (session_dir_of st sid) = true := by
  simp only [provisioned_fs]
  apply create_mt5_config_mono
  split
  · apply copy_template_files_keeps_dirname
    · exact provision_dirs_self _ _
    · exact inTree_session_template_false st.base_path sid h_sid
  · exact provision_dirs_self _ _

theorem create_session_fs_eq
    (st : ManagerState) (login : Int) (password server sid : String)
    (now : Time) (pid : Nat) (initS : Bool) (initE : String) :
    (create_session st login password server sid now pid initS initE).2.fs =
      (get_mt5_exec_path st (provisioned_fs st sid) sid).2 := by
  unfold create_session
  generalize hres : get_mt5_exec_path st (provisioned_fs st sid) sid = res
  obtain ⟨ropt, rfs⟩ := res
  dsimp only
  cases ropt with
  | none => rfl
  | some p =>
    by_cases hp : pathExists rfs p
    · simp only [hp, Bool.not_true, Bool.false_eq_true, if_false]
      cases initS with
      | true => rfl
      | false =>
        simp only [Bool.not_false, if_true]
        exact terminate_match_keeps_fs _ sid
    · simp only [Bool.not_eq_true] at hp
      simp only [hp, Bool.not_false, if_true]

/-! ### Claim theorems -/

/-- C1: every registry value is a `Session` NamedTuple with exactly the eight
fields `(id, login, server, proc, port, mt5_path, created_at, last_accessed)`
and no `send_command` or `cleanup` attribute, so the router's dispatch
`session.send_command(envelope)` raises `AttributeError` for every
registered session id instead of returning a response envelope. -/
theorem session_namedtuple_dispatch_attribute_error
    (st : ManagerState) (now : Time) (sid : String) (s : Session)
    (h : dictLookup st.sessions sid = some s) :
    sessionFields = ["id", "login", "server", "proc", "port", "mt5_path",
      "created_at", "last_accessed"] ∧
    sessionGetAttr s "send_command" = Option.none ∧
    sessionGetAttr s "cleanup" = Option.none ∧
    routes_execute_command st now sid =
      .error (.attributeError "send_command") := by
  refine ⟨rfl, rfl, rfl, ?_⟩
  simp [routes_execute_command, get_session, h, sessionGetAttr]

/-- Witness for C1 at the concrete registered state `demoReg`. -/
theorem session_namedtuple_dispatch_witness :
    dictLookup demoReg.sessions "s1" = some demoSession ∧
    (sessionFields = ["id", "login", "server", "proc", "port", "mt5_path",
       "created_at", "last_accessed"] ∧
     sessionGetAttr demoSession "send_command" = Option.none ∧
     sessionGetAttr demoSession "cleanup" = Option.none ∧
     routes_execute_command demoReg 99 "s1" =
       .error (.attributeError "send_command")) :=
  ⟨by decide,
   session_namedtuple_dispatch_attribute_error demoReg 99 "s1" demoSession (by decide)⟩

/-- C2 (supporting evaluation): starting from `demoBase`, a successful
`create_session` registers `"s1"` with `proc = None` while the spawned
terminal process (pid 777, executable `base/s1/terminal64.exe`) is only in
the OS process table.  `close_session "s1"` then returns `True`, removes the
registry entry (a later `get_session` raises `KeyError` rather than
returning `None`) and removes the directory `base/s1`, but the terminal
process survives: the claim's process-termination requirement fails. -/
theorem close_session_leaves_terminal_process :
    dictLookup afterCreate.sessions "s1" =
      some { id := "s1", login := 42, server := "srv-A", proc := Option.none,
             port := Option.none, mt5_path := ["base", "s1", "terminal64.exe"],
             created_at := 100, last_accessed := 100 } ∧
    afterCreate.procs = [⟨777, ["base", "s1", "terminal64.exe"]⟩] ∧
    (close_session afterCreate "s1").1 = true ∧
    (close_session afterCreate "s1").2.procs =
      [⟨777, ["base", "s1", "terminal64.exe"]⟩] ∧
    pathExists (close_session afterCreate "s1").2.fs ["base", "s1"] = false ∧
    get_session (close_session afterCreate "s1").2 101 "s1" =
      .error (.keyError "Session s1 not found") := by
  decide

/-- C3 counterexample: `get_session` is not a pure lookup.  On `demoReg`,
whose stored session has `last_accessed = 10`, a lookup at time 99 returns
and stores back a session with `last_accessed = 99`. -/
theorem get_session_mutates_last_accessed :
    get_session demoReg 99 "s1" =
      .ok ({ demoSession with last_accessed := 99 },
           { demoReg with
               sessions := [("s1", { demoSession with last_accessed := 99 })] }) ∧
    demoSession.last_accessed = 10 ∧ (99 : Nat) ≠ 10 := by
  decide

/-- C3 amended: for every registered id, `get_session` returns the stored
session with `last_accessed` replaced by the lookup time and stores that
session back under the same key; every other field is carried over by the
`_replace` and every other registry entry is untouched. -/
theorem get_session_updates_exactly_last_accessed
    (st : ManagerState) (now : Time) (sid : String) (s : Session)
    (h : dictLookup st.sessions sid = some s) :
    get_session st now sid =
      .ok ({ s with last_accessed := now },
           { st with
               sessions := dictSet st.sessions sid { s with last_accessed := now } }) ∧
    dictLookup (dictSet st.sessions sid { s with last_accessed := now }) sid =
      some { s with last_accessed := now } ∧
    (∀ k, k ≠ sid →
      dictLookup (dictSet st.sessions sid { s with last_accessed := now }) k =
        dictLookup st.sessions k) := by
  refine ⟨by simp [get_session, h], dictLookup_dictSet_self _ _ _,
    fun k hk => dictLookup_dictSet_ne _ _ _ _ hk⟩

/-- Witness for the amended C3 at the concrete state `demoReg`. -/
theorem get_session_update_witness :
    dictLookup demoReg.sessions "s1" = some demoSession ∧
    (get_session demoReg 99 "s1" =
       .ok ({ demoSession with last_accessed := 99 },
            { demoReg with
                sessions := dictSet demoReg.sessions "s1"
                  { demoSession with last_accessed := 99 } }) ∧
     dictLookup (dictSet demoReg.sessions "s1"
         { demoSession with last_accessed := 99 }) "s1" =
       some { demoSession with last_accessed := 99 } ∧
     (∀ k, k ≠ "s1" →
        dictLookup (dictSet demoReg.sessions "s1"
            { demoSession with last_accessed := 99 }) k =
          dictLookup demoReg.sessions k)) :=
  ⟨by decide,
   get_session_updates_exactly_last_accessed demoReg 99 "s1" demoSession (by decide)⟩

/-- C4 (supporting evaluation): a successful `create_session` returns a
result dict `{"success": True, "session_id": ..., "session_dir": ...,
"mt5_path": ...}` — not the bare id string its `-> str` annotation and its
callers expect — while the id inside that dict is the key under which the
session was registered. -/
theorem create_session_returns_result_dict :
    (create_session demoBase 42 "pw" "srv-A" "s1" 100 777 true "").1 =
      .dict [("success", .bool true), ("session_id", .str "s1"),
             ("session_dir", .path ["base", "s1"]),
             ("mt5_path", .path ["base", "s1", "terminal64.exe"])] ∧
    (create_session demoBase 42 "pw" "srv-A" "s1" 100 777 true "").1 ≠
      .str "s1" ∧
    dictLookup afterCreate.sessions "s1" =
      some { id := "s1", login := 42, server := "srv-A", proc := Option.none,
             port := Option.none, mt5_path := ["base", "s1", "terminal64.exe"],
             created_at := 100, last_accessed := 100 } := by
  decide

/-- C5 (supporting evaluation): `get_session` on an id that is not a key of
the registry raises `KeyError` across the API boundary instead of returning
`None` (every caller in `routes.py`/`main.py` and the repository's own test
expect a `None` return). -/
theorem get_session_unknown_id_raises_keyerror :
    get_session demoBase 0 "nosuch" =
      .error (.keyError "Session nosuch not found") := by
  decide

/-- C6 (supporting evaluation): on `reaperSt` at time 100 with threshold 50,
`cleanup_old_sessions` removes exactly the strictly-overdue session `"old"`
(the session of age exactly 50 is kept) but returns the count `1` — an
`int`, not the array of removed ids that the spec, the repository's test and
the `len()` call in `main.py` expect; that caller consequently hits a
`TypeError`. -/
theorem cleanup_old_sessions_returns_count :
    (cleanup_old_sessions reaperSt 100 50).1 = 1 ∧
    (cleanup_old_sessions reaperSt 100 50).2.sessions.map Prod.fst =
      ["edge", "fresh"] ∧
    dictLookup (cleanup_old_sessions reaperSt 100 50).2.sessions "old" =
      Option.none ∧
    (main_cleanup_old_sessions reaperSt 100 50).1 =
      some (.typeError "object of type 'int' has no len()") := by
  decide

/-- C7 counterexample: on an init failure (`"invalid account"`), the error
dict does carry the vendor message, but the session directory `base/s7`
still exists afterwards (the code deliberately keeps it for diagnostics)
and the spawned terminal process (pid 888) is still running — the
termination attempt is a no-op because the session was never registered. -/
theorem create_session_init_failure_keeps_dir_and_process :
    initFailRun.1 =
      .dict [("success", .bool false), ("error", .str "invalid account"),
             ("session_id", .str "s7"), ("session_dir", .path ["base", "s7"]),
             ("mt5_path", .path ["base", "s7", "terminal64.exe"])] ∧
    pathExists initFailRun.2.fs ["base", "s7"] = true ∧
    initFailRun.2.procs = [⟨888, ["base", "s7", "terminal64.exe"]⟩] ∧
    initFailRun.2.sessions = [] := by
  decide

/-- C8 counterexample: the provisioner's data-dir path for id `"abc"` is
`base/abc`, not `base/session_abc`, and a stale file inside the preexisting
directory `base/abc` survives a full successful `create_session` (here the
template directory is absent, so no removal happens at all). -/
theorem provision_keeps_stale_and_uses_unprefixed_dir :
    session_dir_of staleSt "abc" = ["base", "abc"] ∧
    session_dir_of staleSt "abc" ≠ ["base", "session_abc"] ∧
    pathExists staleRun.2.fs ["base", "abc", "stale.txt"] = true ∧
    pathExists staleRun.2.fs ["base", "session_abc"] = false ∧
    (staleRun.2.sessions.map Prod.fst) = ["abc"] := by
  decide

/-- C9: in the Worker's steady-state loop, the emitted response lines are in
one-to-one correspondence with the input lines that precede the first
terminate request: a parse failure yields one error line, any other
non-terminate line yields exactly one dispatch response, and
`{"type":"terminate"}` ends the loop with no response. -/
theorem worker_loop_one_response_per_line (vendor : Vendor) (lines : List WorkerLine) :
    worker_loop vendor lines =
      (lines.takeWhile (fun l => !(isTerminate l))).map (worker_respond vendor) ∧
    (worker_loop vendor lines).length =
      (lines.takeWhile (fun l => !(isTerminate l))).length := by
  have hmain : worker_loop vendor lines =
      (lines.takeWhile (fun l => !(isTerminate l))).map (worker_respond vendor) := by
    induction lines with
    | nil => rfl
    | cons l rest ih =>
      cases l with
      | malformed raw =>
        simp [worker_loop, List.takeWhile_cons, isTerminate, worker_respond, ih]
      | parsed req =>
        by_cases ht : req.reqType == some "terminate"
        · simp [worker_loop, List.takeWhile_cons, isTerminate, ht]
        · simp [worker_loop, List.takeWhile_cons, isTerminate, ht, worker_respond, ih]
  exact ⟨hmain, by rw [hmain, List.length_map]⟩

/-- C10: for a registered id (registry keys are unique, as in a Python
dict), `close_session` returns `True`; calling it again on the resulting
state returns `False` and performs no further mutation at all — the second
result state is the first one, unchanged. -/
theorem close_session_true_then_false
    (st : ManagerState) (sid : String) (s : Session)
    (hnd : (st.sessions.map Prod.fst).Nodup)
    (h : dictLookup st.sessions sid = some s) :
    (close_session st sid).1 = true ∧
    close_session (close_session st sid).2 sid =
      (false, (close_session st sid).2) := by
  have hses : (close_session st sid).2.sessions = dictErase st.sessions sid := by
    simp only [close_session, h]
    cases s.proc <;> dsimp only <;> split <;> rfl
  have hnone : dictLookup (close_session st sid).2.sessions sid = Option.none := by
    rw [hses]
    exact dictLookup_dictErase_self _ _ hnd
  constructor
  · simp only [close_session, h]
  · generalize hst1 : (close_session st sid).2 = st1 at hnone ⊢
    simp only [close_session, hnone]

/-- C7 amended: whenever worker initialization fails, `create_session`
surfaces the vendor message in its returned error dict — but the Worker is
not killed (the `_terminate_mt5_process` attempt is a no-op because the
session is only registered on success: the registry is unchanged and the
process table keeps the freshly spawned terminal) and the session
directory is deliberately retained for diagnostics, so it still exists
under the sessions base after the failure.  (Stated for a fresh id other
than the template's own name, on a manager whose portable executable
exists and does not live inside this session's data directory; the
template directory may or may not have been built.) -/
theorem create_session_init_failure_behavior
    (st : ManagerState) (login : Int) (password server sid : String)
    (now : Time) (pid : Nat) (errMsg : String)
    (h_fresh : dictLookup st.sessions sid = Option.none)
    (h_sid : sid ≠ "_template")
    (h_port : pathExists st.fs st.portable_mt5_path = true)
    (h_sep : inTree (session_dir_of st sid) st.portable_mt5_path = false) :
    (create_session st login password server sid now pid false errMsg).1 =
      .dict [("success", .bool false), ("error", .str errMsg),
             ("session_id", .str sid),
             ("session_dir", .path (session_dir_of st sid)),
             ("mt5_path", .path (session_dir_of st sid ++ ["terminal64.exe"]))] ∧
    (create_session st login password server sid now pid false errMsg).2.sessions =
      st.sessions ∧
    (create_session st login password server sid now pid false errMsg).2.procs =
      ⟨pid, session_dir_of st sid ++ ["terminal64.exe"]⟩ :: st.procs ∧
    pathExists (create_session st login password server sid now pid false errMsg).2.fs
      (session_dir_of st sid) = true := by
  have hport3 : pathExists (provisioned_fs st sid) st.portable_mt5_path = true :=
    provisioned_fs_portable st sid h_port h_sep
  obtain ⟨hfind, hexists⟩ := get_mt5_exec_path_finds st (provisioned_fs st sid) sid hport3
  have hsd4 : pathExists (get_mt5_exec_path st (provisioned_fs st sid) sid).2
      (session_dir_of st sid) = true :=
    get_mt5_exec_path_mono _ _ _ _ (provisioned_fs_keeps_session_dir st sid h_sid)
  unfold create_session
  generalize hres : get_mt5_exec_path st (provisioned_fs st sid) sid = res
    at hfind hexists hsd4 ⊢
  obtain ⟨ropt, rfs⟩ := res
  dsimp only at hfind hexists hsd4 ⊢
  subst hfind
  dsimp only
  rw [run_mt5_process_spawns _ _ _ _ hexists]
  simp only [hexists, Bool.not_true, Bool.false_eq_true, if_false,
    Bool.not_false, if_true]
  have hterm := terminate_noop_of_unknown
    { st with
        fs := rfs,
        procs := ⟨pid, session_dir_of st sid ++ ["terminal64.exe"]⟩ :: st.procs }
    sid h_fresh
  rw [hterm]
  exact ⟨trivial, rfl, rfl, hsd4⟩

/-- Witness for the amended C7: an init failure with message
`"invalid account"` on the concrete state `demoBase`. -/
theorem create_session_init_failure_witness :
    (dictLookup demoBase.sessions "s7" = Option.none ∧
     "s7" ≠ "_template" ∧
     pathExists demoBase.fs demoBase.portable_mt5_path = true ∧
     inTree (session_dir_of demoBase "s7") demoBase.portable_mt5_path = false) ∧
    ((create_session demoBase 0 "" "" "s7" 100 888 false "invalid account").1 =
       .dict [("success", .bool false), ("error", .str "invalid account"),
              ("session_id", .str "s7"),
              ("session_dir", .path (session_dir_of demoBase "s7")),
              ("mt5_path", .path (session_dir_of demoBase "s7" ++ ["terminal64.exe"]))] ∧
     (create_session demoBase 0 "" "" "s7" 100 888 false "invalid account").2.sessions =
       demoBase.sessions ∧
     (create_session demoBase 0 "" "" "s7" 100 888 false "invalid account").2.procs =
       ⟨888, session_dir_of demoBase "s7" ++ ["terminal64.exe"]⟩ :: demoBase.procs ∧
     pathExists
       (create_session demoBase 0 "" "" "s7" 100 888 false "invalid account").2.fs
       (session_dir_of demoBase "s7") = true) :=
  ⟨⟨by decide, by decide, by decide, by decide⟩,
   create_session_init_failure_behavior demoBase 0 "" "" "s7" 100 888 "invalid account"
     (by decide) (by decide) (by decide) (by decide)⟩

/-- C8 amended: the provisioner computes the data-dir path as
`<sessions-base>/<id>` — without the `session_` prefix — and it does not
remove a preexisting directory before replicating into it: provisioning
goes through `makedirs(..., exist_ok=True)`, so (here stated with the
template directory absent, where no removal happens on any code path) every
preexisting filesystem entry, including stale contents of the session
directory itself, survives the whole `create_session`. -/
theorem provision_path_unprefixed_and_reuses_existing
    (st : ManagerState) (login : Int) (password server sid : String)
    (now : Time) (pid : Nat) (initS : Bool) (initE : String) (q : Path)
    (h_tpl : pathExists st.fs (template_dir_of st) = false)
    (h_sid : sid ≠ "_template")
    (hq : pathExists st.fs q = true) :
    session_dir_of st sid = st.base_path ++ [sid] ∧
    session_dir_of st sid ≠ st.base_path ++ ["session_" ++ sid] ∧
    pathExists (create_session st login password server sid now pid initS initE).2.fs
      q = true := by
  refine ⟨rfl, append_singleton_ne (ne_session_append sid), ?_⟩
  rw [create_session_fs_eq]
  exact get_mt5_exec_path_mono _ _ _ _
    (provisioned_fs_mono_no_template st sid q h_tpl h_sid hq)

/-- Witness for the amended C8: the stale file in `staleSt` survives a full
successful `create_session` under the unprefixed directory `base/abc`. -/
theorem provision_path_witness :
    (pathExists staleSt.fs (template_dir_of staleSt) = false ∧
     "abc" ≠ "_template" ∧
     pathExists staleSt.fs ["base", "abc", "stale.txt"] = true) ∧
    (session_dir_of staleSt "abc" = staleSt.base_path ++ ["abc"] ∧
     session_dir_of staleSt "abc" ≠ staleSt.base_path ++ ["session_" ++ "abc"] ∧
     pathExists (create_session staleSt 7 "pw" "srv-B" "abc" 100 999 true "").2.fs
       ["base", "abc", "stale.txt"] = true) :=
  ⟨⟨by decide, by decide, by decide⟩,
   provision_path_unprefixed_and_reuses_existing staleSt 7 "pw" "srv-B" "abc" 100 999
     true "" ["base", "abc", "stale.txt"] (by decide) (by decide) (by decide)⟩

/-- Witness for C10 at the concrete registered state `demoReg`. -/
theorem close_session_idempotence_witness :
    ((demoReg.sessions.map Prod.fst).Nodup ∧
     dictLookup demoReg.sessions "s1" = some demoSession) ∧
    ((close_session demoReg "s1").1 = true ∧
     close_session (close_session demoReg "s1").2 "s1" =
       (false, (close_session demoReg "s1").2)) :=
  ⟨⟨by decide, by decide⟩,
   close_session_true_then_false demoReg "s1" demoSession (by decide) (by decide)⟩

end MT5Bridge
